import Mathlib

/-!
Shallow embedding of `src/agent_service_demo.py` (browser-automation agent
demo script).  The script reads configuration from the process environment,
opens a service client, best-effort configures tracing, runs an agent
session through a sequence of remote calls, and reports the results.

The embedding models:
  * the environment as `String → Option String` (Python `os.getenv`);
  * every remote SDK call as an oracle field of a `Service` record, each
    returning `Except Err _` (an `Except.error` models a raised exception);
  * the observable behaviour as a trace of events: console prints, remote
    call invocations, environment mutation, and client acquisition/release;
  * the `with project_client:` block structurally, so the close event is
    appended on every exit path of the body;
  * the outer `try/except` as: on an `Except.error` escaping the body, the
    error message and the troubleshooting checklist are printed and the
    error is re-raised (the overall result stays `Except.error`).
-/

namespace BrowserAuto

/-- A single quote character, used inside output strings. -/
def sq : String := String.singleton (Char.ofNat 39)

/-- The 80-character separator line `"=" * 80` printed by the reporter. -/
def eqLine : String := String.mk (List.replicate 80 (Char.ofNat 61))

/-- A Python exception, as observed by the script: `type(e).__name__`,
`str(e)`, and `traceback.format_exc()`. -/
structure Err where
  typeName : String
  msg : String
  traceStr : String
deriving DecidableEq, Repr

/-- Observable events of the script. -/
inductive Event where
  | print (s : String)
  | envSet (k v : String)
  | clientCreate
  | clientClose
  | call (name : String)
deriving DecidableEq, Repr

abbrev Trace := List Event

abbrev Env := String → Option String

/-- Environment read, `os.getenv(k) or ""`: the environment value, with both "unset" and
"set to empty" reading as `""` (Python truthiness of the result is just
non-emptiness of this string). -/
def getv (env : Env) (k : String) : String := (env k).getD ""

/-- Setting an environment variable (`os.environ[k] = v`). -/
def envUpdate (env : Env) (k v : String) : Env :=
  fun x => if x == k then some v else env x

/-- The fixed list `required_vars` of the script. -/
def requiredVars : List String :=
  ["PROJECT_ENDPOINT", "AZURE_PLAYWRIGHT_CONNECTION_NAME", "MODEL_DEPLOYMENT_NAME"]

/-- The optional tracing flag variable name. -/
def flagVar : String := "AZURE_TRACING_GEN_AI_CONTENT_RECORDING_ENABLED"

/-- The list `[var for var in required_vars if not g(var)]` over a read function. -/
def missingOf (g : String → String) : List String :=
  requiredVars.filter (fun v => g v == "")

/-- The check `missing_vars = [var for var in required_vars if not os.getenv(var)]`. -/
def missingVars (env : Env) : List String :=
  missingOf (getv env)

/-- One browser sub-step of a browser-automation tool call. -/
structure BrowserStep where
  last_step_result : String
  current_state : String
  next_step : String
deriving DecidableEq, Repr

/-- The payload of a browser-automation tool call.  `steps` is `none` when
the attribute is absent (the script guards with `hasattr`). -/
structure BrowserAutomation where
  input : String
  output : String
  steps : Option (List BrowserStep)
deriving DecidableEq, Repr

/-- A tool call inside a run step: either the browser-automation variant or
some other tool kind (skipped by the script). -/
inductive ToolCall where
  | browserAutomation (ba : BrowserAutomation)
  | otherTool (kind : String)
deriving DecidableEq, Repr

/-- The polymorphic `step_details` payload: tool-call details or another
variant (e.g. message creation), which the script skips. -/
inductive StepDetails where
  | toolCallDetails (tool_calls : List ToolCall)
  | otherDetails (kind : String)
deriving DecidableEq, Repr

/-- One run step as returned by the run-steps listing. -/
structure RunStep where
  status : String
  step_details : StepDetails
deriving DecidableEq, Repr

/-- The connection record returned by the connection lookup. -/
structure Connection where
  id : String
deriving DecidableEq, Repr

/-- The created agent. -/
structure Agent where
  id : String
deriving DecidableEq, Repr

/-- The created conversation thread. -/
structure AgentThread where
  id : String
deriving DecidableEq, Repr

/-- The created user message. -/
structure AgentMessage where
  id : String
deriving DecidableEq, Repr

/-- The awaited run: identifier, terminal status string, last-error payload. -/
structure Run where
  id : String
  status : String
  last_error : String
deriving DecidableEq, Repr

/-- A URL citation annotation on the final message. -/
structure UrlCitation where
  title : String
  url : String
deriving DecidableEq, Repr

/-- The agent's final response message: its text segment values and its URL
citation annotations. -/
structure ResponseMessage where
  text_messages : List String
  url_citation_annotations : List UrlCitation
deriving DecidableEq, Repr

/-- The remote service, as an oracle: the result each remote call would
return, `Except.error` modelling a raised exception. -/
structure Service where
  getConnectionString : Except Err String
  configureMonitor : Except Err Unit
  instrument : Except Err Unit
  connectionsGet : Except Err Connection
  createAgent : Except Err Agent
  threadsCreate : Except Err AgentThread
  messagesCreate : Except Err AgentMessage
  runsCreateAndProcess : Except Err Run
  runStepsList : Except Err (List RunStep)
  getLastMessage : Except Err (Option ResponseMessage)

/-- The trace of the missing-configuration report (lines 64-75 of the
source): header, one line per missing variable, and the fixed guidance. -/
def configFailTrace (missing : List String) : Trace :=
  Event.print "❌ Missing required environment variables:" ::
  missing.map (fun v => Event.print ("   - " ++ v)) ++
  [Event.print "\nPlease set these environment variables before running.",
   Event.print "\nExample:",
   Event.print "$env:PROJECT_ENDPOINT = \"https://your-project.services.ai.azure.com/api/projects/your-project-id\"",
   Event.print "$env:AZURE_PLAYWRIGHT_CONNECTION_NAME = \"playwright-connection\"",
   Event.print "$env:MODEL_DEPLOYMENT_NAME = \"gpt-4.1\"",
   Event.print "\nOptional (for tracing):",
   Event.print "$env:AZURE_TRACING_GEN_AI_CONTENT_RECORDING_ENABLED = \"true\""]

/-- The prints of the tracing `except` clause (lines 120-125). -/
def tracingCatch (t : Trace) (e : Err) : Trace :=
  t ++ [Event.print ("⚠️  Could not enable tracing: " ++ e.msg),
        Event.print ("   Error type: " ++ e.typeName),
        Event.print ("   Details: " ++ e.traceStr),
        Event.print "   Continuing without tracing..."]

/-- The tracing bootstrap (lines 91-125): queries the telemetry connection
string; if non-empty, configures the exporter and the instrumentation hook
and marks tracing enabled; any raised exception is caught and logged.
Returns the trace and the final `tracing_enabled` flag. -/
def setupTracing (svc : Service) : Trace × Bool :=
  let t0 : Trace := [Event.print "📊 Setting up tracing...",
    Event.call "telemetry.get_application_insights_connection_string"]
  match svc.getConnectionString with
  | .error e => (tracingCatch t0 e, false)
  | .ok cs =>
    if cs == "" then
      (t0 ++ [Event.print "⚠️  No Application Insights connected. Tracing disabled.",
        Event.print "\n   📋 To enable tracing:",
        Event.print "   1. Go to https://ai.azure.com/",
        Event.print "   2. Select your project",
        Event.print ("   3. Go to " ++ sq ++ "Tracing" ++ sq ++ " in the left sidebar"),
        Event.print ("   4. Click " ++ sq ++ "Connect" ++ sq ++ " or " ++ sq ++ "Create new" ++ sq ++ " Application Insights resource"),
        Event.print "   5. Wait for connection to complete",
        Event.print "   6. Re-run this script"], false)
    else
      let t1 := t0 ++ [Event.print "   Found Application Insights connection",
        Event.print ("   Connection string: " ++ cs.take 50 ++ "..."),
        Event.call "configure_azure_monitor"]
      match svc.configureMonitor with
      | .error e => (tracingCatch t1 e, false)
      | .ok _ =>
        let t2 := t1 ++ [Event.call "AIAgentsInstrumentor.instrument"]
        match svc.instrument with
        | .error e => (tracingCatch t2 e, false)
        | .ok _ =>
          (t2 ++ [Event.print "✅ Tracing enabled! View traces at: https://ai.azure.com/",
            Event.print "   Navigate to your project > Tracing",
            Event.print "   Note: Traces may take 1-2 minutes to appear in the portal"], true)

/-- Report of one browser sub-step (lines 239-242), enumerated from 1. -/
def reportBrowserStepsFrom : Nat → List BrowserStep → Trace
  | _, [] => []
  | i, bs :: rest =>
    Event.print ("       " ++ toString i ++ ". Last result: " ++ bs.last_step_result) ::
    Event.print ("          Current state: " ++ bs.current_state) ::
    Event.print ("          Next step: " ++ bs.next_step) ::
    reportBrowserStepsFrom (i + 1) rest

/-- Report of one tool call (lines 231-242): the browser-automation variant
prints its input, output, and browser steps; any other variant prints
nothing. -/
def reportToolCall (c : ToolCall) : Trace :=
  match c with
  | .otherTool _ => []
  | .browserAutomation ba =>
    [Event.print "\n  🌐 Browser Automation Tool Call:",
     Event.print ("     Input: " ++ ba.input),
     Event.print ("     Output: " ++ ba.output)] ++
    match ba.steps with
    | none => []
    | some l =>
      if l.isEmpty then []
      else Event.print "\n     Browser Steps:" :: reportBrowserStepsFrom 1 l

/-- Report of one run step (lines 226-242): status line, then tool-call
details when the step's details are the tool-call variant. -/
def reportStep (n : Nat) (st : RunStep) : Trace :=
  Event.print ("\nStep " ++ toString n ++ " - Status: " ++ st.status) ::
  match st.step_details with
  | .toolCallDetails tcs => tcs.flatMap reportToolCall
  | .otherDetails _ => []

/-- Report of the listed run steps in order, enumerated from `n`
(`enumerate(run_steps, 1)` in the source). -/
def reportStepsFrom : Nat → List RunStep → Trace
  | _, [] => []
  | n, st :: rest => reportStep n st ++ reportStepsFrom (n + 1) rest

/-- Prints of the final-response block for a retrieved message
(lines 254-262): each text segment, then citations when present. -/
def responseTrace (m : ResponseMessage) : Trace :=
  m.text_messages.map (fun v => Event.print ("\n" ++ v)) ++
  (if m.url_citation_annotations.isEmpty then []
   else Event.print "\n📎 Citations:" ::
     m.url_citation_annotations.map
       (fun a => Event.print ("   - " ++ a.title ++ ": " ++ a.url)))

/-- The result-reporting phase (lines 217-280): list run steps, print their
details, fetch the last agent message, print it, and print the closing
notes.  A raised exception escapes with the trace accumulated so far. -/
def reportPhase (svc : Service) (tracingEnabled : Bool)
    (agent : Agent) (thread : AgentThread) : Trace × Except Err Unit :=
  let t0 : Trace := [Event.print "\n📊 Browser Automation Steps:",
    Event.print eqLine, Event.call "agents.run_steps.list"]
  match svc.runStepsList with
  | .error e => (t0, .error e)
  | .ok steps =>
    let t1 := t0 ++ reportStepsFrom 1 steps ++
      [Event.print ("\n" ++ eqLine),
       Event.print ("🎯 Agent" ++ sq ++ "s Final Response:"),
       Event.print eqLine,
       Event.call "agents.messages.get_last_message_by_role"]
    match svc.getLastMessage with
    | .error e => (t1, .error e)
    | .ok om =>
      let t2 := t1 ++ (match om with
        | some m => responseTrace m
        | none => []) ++
        [Event.print "\n💾 Agent preserved for future use!",
         Event.print ("   Agent ID: " ++ agent.id),
         Event.print ("   Thread ID: " ++ thread.id),
         Event.print "\n   You can reuse this agent in future runs.",
         Event.print "\n✨ Demo completed successfully!"] ++
        (if tracingEnabled then
          [Event.print "\n📊 View detailed traces at: https://ai.azure.com/",
           Event.print "   Navigate to: Your Project > Tracing",
           Event.print ("   You" ++ sq ++ "ll see timeline, browser actions, and performance metrics!"),
           Event.print "\n   ⏱️  Note: Traces can take 1-2 minutes to appear in Application Insights",
           Event.print ("   💡 Tip: Refresh the Tracing page if you don" ++ sq ++ "t see them immediately")]
        else
          [Event.print "\n⚠️  Tracing was not enabled for this run.",
           Event.print "   Connect Application Insights in the portal to enable tracing."])
      (t2, .ok ())

/-- The body of the `with project_client:` block (lines 131-280): the agent
session's sequential remote calls, the failed-status soft stop, and the
reporting phase.  `g` is the environment read function after the optional
flag update.  An `Except.error` result models an exception escaping the
body. -/
def runBody (g : String → String) (svc : Service) (tracingEnabled : Bool) :
    Trace × Except Err Unit :=
  let t0 : Trace := [Event.print ("\n🔗 Retrieving Playwright connection: " ++
      g "AZURE_PLAYWRIGHT_CONNECTION_NAME"),
    Event.call "connections.get"]
  match svc.connectionsGet with
  | .error e => (t0, .error e)
  | .ok conn =>
    let t1 := t0 ++ [Event.print ("✅ Connected! Connection ID: " ++ conn.id),
      Event.print "\n🤖 Creating AI Agent with Browser Automation tool...",
      Event.call "agents.create_agent"]
    match svc.createAgent with
    | .error e => (t1, .error e)
    | .ok agent =>
      let t2 := t1 ++ [Event.print ("✅ Agent created! Agent ID: " ++ agent.id),
        Event.print "\n💬 Creating conversation thread...",
        Event.call "agents.threads.create"]
      match svc.threadsCreate with
      | .error e => (t2, .error e)
      | .ok thread =>
        let t3 := t2 ++ [Event.print ("✅ Thread created! Thread ID: " ++ thread.id),
          Event.print "\n📝 Sending task to agent...",
          Event.call "agents.messages.create"]
        match svc.messagesCreate with
        | .error e => (t3, .error e)
        | .ok msg =>
          let t4 := t3 ++ [Event.print ("✅ Message created! Message ID: " ++ msg.id),
            Event.print "\n⏳ Agent is working... This may take a minute as it navigates the website...",
            Event.print "   (The agent will launch a browser, search for MSFT, and extract the data)",
            Event.call "agents.runs.create_and_process"]
          match svc.runsCreateAndProcess with
          | .error e => (t4, .error e)
          | .ok run =>
            let t5 := t4 ++
              [Event.print ("\n✅ Agent run completed! Status: " ++ run.status)]
            if run.status == "failed" then
              (t5 ++ [Event.print ("❌ Run failed: " ++ run.last_error)], .ok ())
            else
              let p := reportPhase svc tracingEnabled agent thread
              (t5 ++ p.1, p.2)

/-- The troubleshooting prints of the outer `except` clause (lines 282-289),
followed by the re-raise. -/
def errorReport (e : Err) : Trace :=
  [Event.print ("\n❌ Error: " ++ e.msg),
   Event.print "\nTroubleshooting:",
   Event.print "1. Ensure you have created a Playwright Workspace in Azure Portal",
   Event.print "2. Verify the connection is created in AI Foundry portal under Connected Resources",
   Event.print "3. Check that your PROJECT_ENDPOINT is correct",
   Event.print ("4. Ensure your identity has " ++ sq ++ "Contributor" ++ sq ++ " role on the Playwright Workspace")]

/-- The test `not os.getenv(flag)` at line 78: the optional flag is auto-set. -/
def setFlagOf (g : String → String) : Bool := g flagVar == ""

/-- The environment read function after the optional flag auto-set. -/
def gAfterFlag (g : String → String) : String → String :=
  if setFlagOf g then (fun k => if k == flagVar then "true" else g k) else g

/-- The trace of the optional flag auto-set (lines 79-80). -/
def tSetOf (g : String → String) : Trace :=
  if setFlagOf g then
    [Event.envSet flagVar "true", Event.print "✅ Enabled trace content recording"]
  else []

/-- The client-initialization print and acquisition (lines 83-88). -/
def initTrace : Trace :=
  [Event.print "🔧 Initializing Azure AI Foundry Project Client...",
   Event.clientCreate]

/-- The trace appended after the `with` block closes: nothing on a normal
return, the outer `except` clause's prints on an escaping exception. -/
def tailOf : Except Err Unit → Trace
  | .ok _ => []
  | .error e => errorReport e

/-- The whole `main()` over the environment read function `g`.  Returns the
trace, whether the optional flag was auto-set, and the result (`Except.ok`
for a normal return, `Except.error` for an escaping exception).  The
`with project_client:` block is structural: `Event.clientClose` is appended
after the body's trace on every path, before the outer `except` prints. -/
def mainAux (g : String → String) (svc : Service) :
    Trace × Bool × Except Err Unit :=
  if (missingOf g).isEmpty then
    (tSetOf g ++ initTrace ++ (setupTracing svc).1 ++
       (runBody (gAfterFlag g) svc (setupTracing svc).2).1 ++
       [Event.clientClose] ++
       tailOf (runBody (gAfterFlag g) svc (setupTracing svc).2).2,
     setFlagOf g,
     (runBody (gAfterFlag g) svc (setupTracing svc).2).2)
  else
    (configFailTrace (missingOf g), false, .ok ())

/-- The script's `main()`: reads the environment, runs `mainAux`, and
reconstructs the final environment (the only mutation is the optional
flag auto-set). -/
def main (env : Env) (svc : Service) : Trace × Env × Except Err Unit :=
  let res := mainAux (getv env) svc
  (res.1,
   if res.2.1 then envUpdate env flagVar "true" else env,
   res.2.2)

/-! ### Helper lemmas -/

/-- Every event of the tracing bootstrap is a console print or one of its
three remote/SDK calls. -/
theorem setupTracing_mem (svc : Service) (ev : Event)
    (h : ev ∈ (setupTracing svc).1) :
    (∃ s, ev = Event.print s) ∨
    ev = Event.call "telemetry.get_application_insights_connection_string" ∨
    ev = Event.call "configure_azure_monitor" ∨
    ev = Event.call "AIAgentsInstrumentor.instrument" := by
  unfold setupTracing at h
  rcases hcs : svc.getConnectionString with e | cs <;> rw [hcs] at h
  · simp only [tracingCatch, List.mem_append, List.mem_cons,
      List.not_mem_nil, or_false] at h
    rcases h with (h | h) | h | h | h | h <;> simp [h]
  · by_cases hempty : cs == ""
    · simp only [hempty, if_true] at h
      simp only [List.mem_append, List.mem_cons, List.not_mem_nil, or_false] at h
      rcases h with (h | h) | h | h | h | h | h | h | h | h <;> simp [h]
    · simp only [hempty, if_false, Bool.false_eq_true] at h
      rcases hcm : svc.configureMonitor with e | u <;> rw [hcm] at h
      · simp only [tracingCatch, List.mem_append, List.mem_cons,
          List.not_mem_nil, or_false] at h
        rcases h with ((h | h) | h | h | h) | h | h | h | h <;> simp [h]
      · rcases hin : svc.instrument with e | u <;> rw [hin] at h
        · simp only [tracingCatch, List.mem_append, List.mem_cons,
            List.not_mem_nil, or_false] at h
          rcases h with (((h | h) | h | h | h) | h) | h | h | h | h <;> simp [h]
        · simp only [List.mem_append, List.mem_cons,
            List.not_mem_nil, or_false] at h
          rcases h with (((h | h) | h | h | h) | h) | h | h | h <;> simp [h]

/-- Every event of the browser-steps report is a print. -/
theorem reportBrowserStepsFrom_print :
    ∀ (i : Nat) (l : List BrowserStep) (ev : Event),
      ev ∈ reportBrowserStepsFrom i l → ∃ s, ev = Event.print s := by
  intro i l
  induction l generalizing i with
  | nil => intro ev h; simp [reportBrowserStepsFrom] at h
  | cons b rest ih =>
    intro ev h
    simp only [reportBrowserStepsFrom, List.mem_cons] at h
    rcases h with h | h | h | h
    · exact ⟨_, h⟩
    · exact ⟨_, h⟩
    · exact ⟨_, h⟩
    · exact ih (i + 1) ev h

/-- Every event of a tool-call report is a print. -/
theorem reportToolCall_print (c : ToolCall) (ev : Event)
    (h : ev ∈ reportToolCall c) : ∃ s, ev = Event.print s := by
  rcases c with ba | k
  · simp only [reportToolCall, List.mem_append, List.mem_cons,
      List.not_mem_nil, or_false] at h
    rcases h with (h | h | h) | h
    · exact ⟨_, h⟩
    · exact ⟨_, h⟩
    · exact ⟨_, h⟩
    · rcases hs : ba.steps with _ | l <;> rw [hs] at h
      · simp at h
      · by_cases he : l.isEmpty
        · simp [he] at h
        · simp only [he, if_false, Bool.false_eq_true, List.mem_cons] at h
          rcases h with h | h
          · exact ⟨_, h⟩
          · exact reportBrowserStepsFrom_print 1 l ev h
  · simp [reportToolCall] at h

/-- Every event of a step report is a print. -/
theorem reportStep_print (n : Nat) (st : RunStep) (ev : Event)
    (h : ev ∈ reportStep n st) : ∃ s, ev = Event.print s := by
  simp only [reportStep, List.mem_cons] at h
  rcases h with h | h
  · exact ⟨_, h⟩
  · rcases hd : st.step_details with tcs | k <;> rw [hd] at h
    · rcases List.mem_flatMap.1 h with ⟨c, _, hc⟩
      exact reportToolCall_print c ev hc
    · simp at h

/-- Every event of the steps report is a print. -/
theorem reportStepsFrom_print :
    ∀ (n : Nat) (l : List RunStep) (ev : Event),
      ev ∈ reportStepsFrom n l → ∃ s, ev = Event.print s := by
  intro n l
  induction l generalizing n with
  | nil => intro ev h; simp [reportStepsFrom] at h
  | cons st rest ih =>
    intro ev h
    simp only [reportStepsFrom, List.mem_append] at h
    rcases h with h | h
    · exact reportStep_print n st ev h
    · exact ih (n + 1) ev h

/-- Every event of the final-response block is a print. -/
theorem responseTrace_print (m : ResponseMessage) (ev : Event)
    (h : ev ∈ responseTrace m) : ∃ s, ev = Event.print s := by
  simp only [responseTrace, List.mem_append] at h
  rcases h with h | h
  · rcases List.mem_map.1 h with ⟨v, _, hv⟩
    exact ⟨_, hv.symm⟩
  · by_cases he : m.url_citation_annotations.isEmpty
    · simp [he] at h
    · simp only [he, if_false, Bool.false_eq_true, List.mem_cons] at h
      rcases h with h | h
      · exact ⟨_, h⟩
      · rcases List.mem_map.1 h with ⟨a, _, ha⟩
        exact ⟨_, ha.symm⟩

/-- The steps report never emits a client-close event. -/
theorem reportStepsFrom_no_close (n : Nat) (l : List RunStep) :
    Event.clientClose ∉ reportStepsFrom n l := by
  intro h
  rcases reportStepsFrom_print n l _ h with ⟨s, hp⟩
  exact Event.noConfusion hp

/-- The final-response block never emits a client-close event. -/
theorem responseTrace_no_close (m : ResponseMessage) :
    Event.clientClose ∉ responseTrace m := by
  intro h
  rcases responseTrace_print m _ h with ⟨s, hp⟩
  exact Event.noConfusion hp

/-- The reporting phase never emits a client-close event. -/
theorem reportPhase_no_close (svc : Service) (te : Bool)
    (ag : Agent) (th : AgentThread) :
    Event.clientClose ∉ (reportPhase svc te ag th).1 := by
  unfold reportPhase
  rcases hs : svc.runStepsList with e | steps
  · simp
  · rcases hm : svc.getLastMessage with e | om
    · simp [reportStepsFrom_no_close]
    · rcases om with _ | m <;> cases te <;>
        simp [reportStepsFrom_no_close, responseTrace_no_close]

/-- The body of the `with` block never emits a client-close event: the
release is performed only by the scope itself. -/
theorem runBody_no_close (g : String → String) (svc : Service) (te : Bool) :
    Event.clientClose ∉ (runBody g svc te).1 := by
  unfold runBody
  rcases h1 : svc.connectionsGet with e | conn
  · simp
  · rcases h2 : svc.createAgent with e | ag
    · simp
    · rcases h3 : svc.threadsCreate with e | th
      · simp
      · rcases h4 : svc.messagesCreate with e | m
        · simp
        · rcases h5 : svc.runsCreateAndProcess with e | run
          · simp
          · by_cases h6 : run.status == "failed"
            · simp [h6]
            · simp [h6, reportPhase_no_close]

/-- Events of the optional flag auto-set trace. -/
theorem tSetOf_mem (g : String → String) (ev : Event) (h : ev ∈ tSetOf g) :
    ev = Event.envSet flagVar "true" ∨
    ev = Event.print "✅ Enabled trace content recording" := by
  unfold tSetOf at h
  split at h
  · simp at h
    tauto
  · simp at h

/-- The flag auto-set trace contains no remote call event. -/
theorem tSetOf_no_call (g : String → String) (n : String) :
    Event.call n ∉ tSetOf g := by
  intro h
  rcases tSetOf_mem g _ h with hp | hp <;> exact Event.noConfusion hp

/-- The flag auto-set trace contains no client-close event. -/
theorem tSetOf_no_close (g : String → String) :
    Event.clientClose ∉ tSetOf g := by
  intro h
  rcases tSetOf_mem g _ h with hp | hp <;> exact Event.noConfusion hp

/-- The tracing bootstrap never invokes a remote call other than its own
three telemetry-related calls. -/
theorem setupTracing_no_call (svc : Service) (n : String)
    (h1 : n ≠ "telemetry.get_application_insights_connection_string")
    (h2 : n ≠ "configure_azure_monitor")
    (h3 : n ≠ "AIAgentsInstrumentor.instrument") :
    Event.call n ∉ (setupTracing svc).1 := by
  intro h
  rcases setupTracing_mem svc _ h with ⟨s, hp⟩ | hp | hp | hp
  · exact Event.noConfusion hp
  · exact h1 (by injection hp)
  · exact h2 (by injection hp)
  · exact h3 (by injection hp)

/-- The tracing bootstrap never emits a client-close event. -/
theorem setupTracing_no_close (svc : Service) :
    Event.clientClose ∉ (setupTracing svc).1 := by
  intro h
  rcases setupTracing_mem svc _ h with ⟨s, hp⟩ | hp | hp | hp <;>
    exact Event.noConfusion hp

/-- Shape of `main` when all required settings are present: flag auto-set
trace, client initialization, tracing bootstrap, the `with`-block body, the
client release, and the outer except prints when an error escapes. -/
theorem main_shape (env : Env) (svc : Service) (h : missingVars env = []) :
    main env svc =
      (tSetOf (getv env) ++ initTrace ++ (setupTracing svc).1 ++
         (runBody (gAfterFlag (getv env)) svc (setupTracing svc).2).1 ++
         [Event.clientClose] ++
         tailOf (runBody (gAfterFlag (getv env)) svc (setupTracing svc).2).2,
       (if setFlagOf (getv env) then envUpdate env flagVar "true" else env),
       (runBody (gAfterFlag (getv env)) svc (setupTracing svc).2).2) := by
  have h' : missingOf (getv env) = [] := h
  simp [main, mainAux, h']

/-- The session trace of the body up to and including the run
create-and-await call, with the first four remote calls succeeding. -/
def sessionTrace (g : String → String) (conn : Connection) (ag : Agent)
    (th : AgentThread) (m : AgentMessage) : Trace :=
  [Event.print ("\n🔗 Retrieving Playwright connection: " ++
      g "AZURE_PLAYWRIGHT_CONNECTION_NAME"),
   Event.call "connections.get",
   Event.print ("✅ Connected! Connection ID: " ++ conn.id),
   Event.print "\n🤖 Creating AI Agent with Browser Automation tool...",
   Event.call "agents.create_agent",
   Event.print ("✅ Agent created! Agent ID: " ++ ag.id),
   Event.print "\n💬 Creating conversation thread...",
   Event.call "agents.threads.create",
   Event.print ("✅ Thread created! Thread ID: " ++ th.id),
   Event.print "\n📝 Sending task to agent...",
   Event.call "agents.messages.create",
   Event.print ("✅ Message created! Message ID: " ++ m.id),
   Event.print "\n⏳ Agent is working... This may take a minute as it navigates the website...",
   Event.print "   (The agent will launch a browser, search for MSFT, and extract the data)",
   Event.call "agents.runs.create_and_process"]

/-- When the awaited run status is `"failed"`, the body prints the
last-error payload after the session trace and the status line, and
returns normally. -/
theorem runBody_failed (g : String → String) (svc : Service) (te : Bool)
    (conn : Connection) (ag : Agent) (th : AgentThread) (m : AgentMessage)
    (run : Run)
    (hconn : svc.connectionsGet = .ok conn)
    (hagent : svc.createAgent = .ok ag)
    (hth : svc.threadsCreate = .ok th)
    (hmsg : svc.messagesCreate = .ok m)
    (hrun : svc.runsCreateAndProcess = .ok run)
    (hst : run.status = "failed") :
    runBody g svc te =
      (sessionTrace g conn ag th m ++
         [Event.print ("\n✅ Agent run completed! Status: " ++ run.status),
          Event.print ("❌ Run failed: " ++ run.last_error)],
       .ok ()) := by
  unfold runBody
  rw [hconn, hagent, hth, hmsg, hrun]
  dsimp only
  have hcond : (run.status == "failed") = true := by simp [hst]
  rw [hcond]
  simp [sessionTrace]

/-- C1: for every run whose awaited terminal status is "failed" with
last-error payload `P`, the program prints `P` (as the run-failed line),
never performs the run-step listing nor the last-message lookup, and
returns normally (`Except.ok`), raising no exception. -/
theorem C1_run_failed_soft_stop (env : Env) (svc : Service)
    (conn : Connection) (ag : Agent) (th : AgentThread) (m : AgentMessage)
    (run : Run)
    (hmiss : missingVars env = [])
    (hconn : svc.connectionsGet = .ok conn)
    (hagent : svc.createAgent = .ok ag)
    (hth : svc.threadsCreate = .ok th)
    (hmsg : svc.messagesCreate = .ok m)
    (hrun : svc.runsCreateAndProcess = .ok run)
    (hst : run.status = "failed") :
    (main env svc).2.2 = Except.ok () ∧
    Event.print ("❌ Run failed: " ++ run.last_error) ∈ (main env svc).1 ∧
    Event.call "agents.run_steps.list" ∉ (main env svc).1 ∧
    Event.call "agents.messages.get_last_message_by_role" ∉ (main env svc).1 := by
  have hb := runBody_failed (gAfterFlag (getv env)) svc (setupTracing svc).2
    conn ag th m run hconn hagent hth hmsg hrun hst
  rw [main_shape env svc hmiss, hb]
  refine ⟨rfl, ?_, ?_, ?_⟩
  · simp
  · simp [tailOf, sessionTrace, tSetOf_no_call, initTrace,
      setupTracing_no_call svc "agents.run_steps.list"
        (by decide) (by decide) (by decide)]
  · simp [tailOf, sessionTrace, tSetOf_no_call, initTrace,
      setupTracing_no_call svc "agents.messages.get_last_message_by_role"
        (by decide) (by decide) (by decide)]

/-- Every event of the missing-configuration report is a console print. -/
theorem configFailTrace_print (m : List String) (ev : Event)
    (h : ev ∈ configFailTrace m) : ∃ s, ev = Event.print s := by
  induction m with
  | nil =>
    simp [configFailTrace] at h
    rcases h with h | h | h | h | h | h | h | h <;> exact ⟨_, h⟩
  | cons a l ih =>
    simp only [configFailTrace, List.map_cons, List.cons_append,
      List.mem_cons] at h
    rcases h with h | h | h
    · exact ⟨_, h⟩
    · exact ⟨_, h⟩
    · exact ih (List.mem_cons_of_mem _ h)

/-- A `"   - <var>"` line for a required variable appears in the
missing-configuration report exactly when that variable is in the missing
list (the missing list being drawn from the required list). -/
theorem configFailTrace_var_line (m : List String)
    (hm : ∀ x ∈ m, x ∈ requiredVars) (v : String) (hv : v ∈ requiredVars) :
    Event.print ("   - " ++ v) ∈ configFailTrace m ↔ v ∈ m := by
  constructor
  · intro h
    simp only [requiredVars, List.mem_cons, List.not_mem_nil, or_false] at hv
    rcases hv with rfl | rfl | rfl <;>
    · simp [configFailTrace] at h
      obtain ⟨x, hx, hxe⟩ := h
      have hxr := hm x hx
      simp only [requiredVars, List.mem_cons, List.not_mem_nil,
        or_false] at hxr
      rcases hxr with rfl | rfl | rfl <;> simp at hxe <;> exact hx
  · intro h
    simp only [configFailTrace, List.mem_cons, List.mem_append, List.mem_map]
    exact Or.inl (Or.inr ⟨v, h, rfl⟩)

/-- C2: when any required setting is absent (falsy), the program prints the
missing-configuration report listing exactly the missing settings, makes no
remote call, constructs no client, leaves the environment unchanged, and
returns normally. -/
theorem C2_config_missing_no_side_effects (env : Env) (svc : Service)
    (hmiss : missingVars env ≠ []) :
    main env svc = (configFailTrace (missingVars env), env, Except.ok ()) ∧
    (∀ n, Event.call n ∉ configFailTrace (missingVars env)) ∧
    Event.clientCreate ∉ configFailTrace (missingVars env) ∧
    (∀ v ∈ requiredVars,
      Event.print ("   - " ++ v) ∈ configFailTrace (missingVars env) ↔
        v ∈ missingVars env) := by
  have h' : (missingOf (getv env)).isEmpty = false := by
    rcases hm : missingOf (getv env) with _ | ⟨a, l⟩
    · exact absurd hm hmiss
    · rfl
  refine ⟨by simp [main, mainAux, h', missingVars], ?_, ?_, ?_⟩
  · intro n h
    rcases configFailTrace_print _ _ h with ⟨s, hp⟩
    exact Event.noConfusion hp
  · intro h
    rcases configFailTrace_print _ _ h with ⟨s, hp⟩
    exact Event.noConfusion hp
  · intro v hv
    exact configFailTrace_var_line (missingVars env)
      (fun x hx => List.mem_of_mem_filter
        (show x ∈ List.filter (fun v => getv env v == "") requiredVars from hx))
      v hv

/-! ### Concrete fixtures for witnesses and counterexamples -/

/-- An environment with all three required settings present (flag unset). -/
def envAll : Env := fun k =>
  if k == "PROJECT_ENDPOINT" then some "EP"
  else if k == "AZURE_PLAYWRIGHT_CONNECTION_NAME" then some "CN"
  else if k == "MODEL_DEPLOYMENT_NAME" then some "MD"
  else none

/-- The empty environment: all settings unset. -/
def envNone : Env := fun _ => none

/-- A service where every remote call succeeds, the run completes, the steps
list is empty, and no agent message exists. -/
def svcOk : Service where
  getConnectionString := .ok ""
  configureMonitor := .ok ()
  instrument := .ok ()
  connectionsGet := .ok ⟨"cid"⟩
  createAgent := .ok ⟨"aid"⟩
  threadsCreate := .ok ⟨"tid"⟩
  messagesCreate := .ok ⟨"mid"⟩
  runsCreateAndProcess := .ok ⟨"rid", "completed", ""⟩
  runStepsList := .ok []
  getLastMessage := .ok none

/-- The service `svcOk` with the awaited run failing with last-error payload `"P0"`. -/
def svcFailRun : Service :=
  { svcOk with runsCreateAndProcess := .ok ⟨"rid", "failed", "P0"⟩ }

/-- C1 witness: on a concrete failed run the soft-stop behaviour holds. -/
theorem C1_run_failed_soft_stop_witness :
    (main envAll svcFailRun).2.2 = Except.ok () ∧
    Event.print ("❌ Run failed: " ++ "P0") ∈ (main envAll svcFailRun).1 ∧
    Event.call "agents.run_steps.list" ∉ (main envAll svcFailRun).1 ∧
    Event.call "agents.messages.get_last_message_by_role" ∉
      (main envAll svcFailRun).1 :=
  C1_run_failed_soft_stop envAll svcFailRun ⟨"cid"⟩ ⟨"aid"⟩ ⟨"tid"⟩ ⟨"mid"⟩
    ⟨"rid", "failed", "P0"⟩ (by decide) rfl rfl rfl rfl rfl rfl

/-- C2 witness: with all three settings unset, the report lists all three
and nothing else happens. -/
theorem C2_config_missing_no_side_effects_witness :
    main envNone svcOk =
      (configFailTrace (missingVars envNone), envNone, Except.ok ()) ∧
    (∀ n, Event.call n ∉ configFailTrace (missingVars envNone)) ∧
    Event.clientCreate ∉ configFailTrace (missingVars envNone) ∧
    (∀ v ∈ requiredVars,
      Event.print ("   - " ++ v) ∈ configFailTrace (missingVars envNone) ↔
        v ∈ missingVars envNone) :=
  C2_config_missing_no_side_effects envNone svcOk (by decide)

/-- The C3 scenario run step: one tool-call step holding one
browser-automation call with input `"I1"`, output `"O1"`, and one browser
step with current state `"S1"`. -/
def stepC3 : RunStep :=
  ⟨"completed",
   .toolCallDetails [.browserAutomation ⟨"I1", "O1", some [⟨"", "S1", "click"⟩]⟩]⟩

/-- The service `svcOk` with the C3 scenario as the run-steps listing. -/
def svcC3 : Service := { svcOk with runStepsList := .ok [stepC3] }

/-- C3: for the completed run with one tool-call step holding one
browser-automation call (input `"I1"`, output `"O1"`, one browser step with
current state `"S1"`), the printed output contains the `I1` input line, the
`O1` output line, and the `S1` state line in that order; the step and the
browser step are enumerated with 1-based positions; and exactly one browser
step line is printed. -/
theorem C3_reporter_prints_in_order :
    [Event.print "     Input: I1", Event.print "     Output: O1",
     Event.print "          Current state: S1"].Sublist
      (main envAll svcC3).1 ∧
    Event.print "\nStep 1 - Status: completed" ∈ (main envAll svcC3).1 ∧
    Event.print "       1. Last result: " ∈ (main envAll svcC3).1 ∧
    ((main envAll svcC3).1.filter
        (fun ev => ev == Event.print "       1. Last result: ")).length = 1 ∧
    ((main envAll svcC3).1.filter
        (fun ev => ev == Event.print "\nStep 1 - Status: completed")).length = 1 := by
  decide

/-- The body of the `with` block always begins with the connection-retrieval
print and the connection lookup call. -/
theorem runBody_starts (g : String → String) (svc : Service) (te : Bool) :
    ∃ rest, (runBody g svc te).1 =
      Event.print ("\n🔗 Retrieving Playwright connection: " ++
        g "AZURE_PLAYWRIGHT_CONNECTION_NAME") ::
      Event.call "connections.get" :: rest := by
  unfold runBody
  rcases svc.connectionsGet with e | conn
  · exact ⟨_, rfl⟩
  · rcases svc.createAgent with e | ag
    · exact ⟨_, rfl⟩
    · rcases svc.threadsCreate with e | th
      · exact ⟨_, rfl⟩
      · rcases svc.messagesCreate with e | m
        · exact ⟨_, rfl⟩
        · rcases svc.runsCreateAndProcess with e | run
          · exact ⟨_, rfl⟩
          · dsimp only
            split
            · exact ⟨_, rfl⟩
            · exact ⟨_, rfl⟩

/-- C4: any exception raised by the telemetry connection-string lookup, the
exporter configuration, or the instrumentation hook is caught by the Tracing
Bootstrap, which logs the error type and the diagnostic trace, leaves
tracing inactive, and never propagates; the agent session is still
reached. -/
theorem C4_tracing_failures_caught (svc : Service) (e : Err) :
    (svc.getConnectionString = .error e →
      setupTracing svc =
        (tracingCatch
          [Event.print "📊 Setting up tracing...",
           Event.call "telemetry.get_application_insights_connection_string"] e,
         false)) ∧
    (∀ cs, svc.getConnectionString = .ok cs → cs ≠ "" →
      svc.configureMonitor = .error e →
      setupTracing svc =
        (tracingCatch
          [Event.print "📊 Setting up tracing...",
           Event.call "telemetry.get_application_insights_connection_string",
           Event.print "   Found Application Insights connection",
           Event.print ("   Connection string: " ++ cs.take 50 ++ "..."),
           Event.call "configure_azure_monitor"] e,
         false)) ∧
    (∀ cs, svc.getConnectionString = .ok cs → cs ≠ "" →
      svc.configureMonitor = .ok () →
      svc.instrument = .error e →
      setupTracing svc =
        (tracingCatch
          [Event.print "📊 Setting up tracing...",
           Event.call "telemetry.get_application_insights_connection_string",
           Event.print "   Found Application Insights connection",
           Event.print ("   Connection string: " ++ cs.take 50 ++ "..."),
           Event.call "configure_azure_monitor",
           Event.call "AIAgentsInstrumentor.instrument"] e,
         false)) ∧
    (∀ env, missingVars env = [] →
      Event.call "connections.get" ∈ (main env svc).1) := by
  refine ⟨?_, ?_, ?_, ?_⟩
  · intro h
    unfold setupTracing
    rw [h]
    try rfl
  · intro cs h hne hcm
    have hcond : (cs == "") = false := by simp [hne]
    unfold setupTracing
    rw [h]
    try dsimp only
    rw [hcond]
    try dsimp only
    rw [hcm]
    try rfl
  · intro cs h hne hcm hin
    have hcond : (cs == "") = false := by simp [hne]
    unfold setupTracing
    rw [h]
    try dsimp only
    rw [hcond]
    try dsimp only
    rw [hcm]
    try dsimp only
    rw [hin]
    try rfl
  · intro env hm
    rw [main_shape env svc hm]
    obtain ⟨rest, hr⟩ :=
      runBody_starts (gAfterFlag (getv env)) svc (setupTracing svc).2
    rw [hr]
    simp

/-- C5: every exception raised by a remote call inside the Service Client
scope propagates uncaught: the client is closed, the original error message
and the fixed troubleshooting checklist are printed, and the same exception
is re-raised, so the program terminates abnormally (`Except.error`). -/
theorem C5_remote_errors_propagate (env : Env) (svc : Service)
    (hmiss : missingVars env = []) :
    (∀ e, svc.connectionsGet = .error e →
      (main env svc).2.2 = Except.error e ∧
      Event.clientClose :: errorReport e <:+ (main env svc).1) ∧
    (∀ conn e, svc.connectionsGet = .ok conn →
      svc.createAgent = .error e →
      (main env svc).2.2 = Except.error e ∧
      Event.clientClose :: errorReport e <:+ (main env svc).1) ∧
    (∀ conn ag e, svc.connectionsGet = .ok conn →
      svc.createAgent = .ok ag → svc.threadsCreate = .error e →
      (main env svc).2.2 = Except.error e ∧
      Event.clientClose :: errorReport e <:+ (main env svc).1) ∧
    (∀ conn ag th e, svc.connectionsGet = .ok conn →
      svc.createAgent = .ok ag → svc.threadsCreate = .ok th →
      svc.messagesCreate = .error e →
      (main env svc).2.2 = Except.error e ∧
      Event.clientClose :: errorReport e <:+ (main env svc).1) ∧
    (∀ conn ag th m e, svc.connectionsGet = .ok conn →
      svc.createAgent = .ok ag → svc.threadsCreate = .ok th →
      svc.messagesCreate = .ok m → svc.runsCreateAndProcess = .error e →
      (main env svc).2.2 = Except.error e ∧
      Event.clientClose :: errorReport e <:+ (main env svc).1) ∧
    (∀ conn ag th m run e, svc.connectionsGet = .ok conn →
      svc.createAgent = .ok ag → svc.threadsCreate = .ok th →
      svc.messagesCreate = .ok m → svc.runsCreateAndProcess = .ok run →
      run.status ≠ "failed" → svc.runStepsList = .error e →
      (main env svc).2.2 = Except.error e ∧
      Event.clientClose :: errorReport e <:+ (main env svc).1) ∧
    (∀ conn ag th m run steps e, svc.connectionsGet = .ok conn →
      svc.createAgent = .ok ag → svc.threadsCreate = .ok th →
      svc.messagesCreate = .ok m → svc.runsCreateAndProcess = .ok run →
      run.status ≠ "failed" → svc.runStepsList = .ok steps →
      svc.getLastMessage = .error e →
      (main env svc).2.2 = Except.error e ∧
      Event.clientClose :: errorReport e <:+ (main env svc).1) := by
  have hshape := main_shape env svc hmiss
  have key : ∀ e : Err,
      (runBody (gAfterFlag (getv env)) svc (setupTracing svc).2).2 =
        Except.error e →
      (main env svc).2.2 = Except.error e ∧
      Event.clientClose :: errorReport e <:+ (main env svc).1 := by
    intro e hres
    rw [hshape]
    refine ⟨hres, ⟨tSetOf (getv env) ++ initTrace ++ (setupTracing svc).1 ++
      (runBody (gAfterFlag (getv env)) svc (setupTracing svc).2).1, ?_⟩⟩
    rw [hres]
    simp [tailOf]
  refine ⟨?_, ?_, ?_, ?_, ?_, ?_, ?_⟩
  · intro e h
    refine key e ?_
    unfold runBody
    rw [h]
  · intro conn e h1 h2
    refine key e ?_
    unfold runBody
    rw [h1, h2]
  · intro conn ag e h1 h2 h3
    refine key e ?_
    unfold runBody
    rw [h1, h2, h3]
  · intro conn ag th e h1 h2 h3 h4
    refine key e ?_
    unfold runBody
    rw [h1, h2, h3, h4]
  · intro conn ag th m e h1 h2 h3 h4 h5
    refine key e ?_
    unfold runBody
    rw [h1, h2, h3, h4, h5]
  · intro conn ag th m run e h1 h2 h3 h4 h5 hst h6
    refine key e ?_
    have hcond : (run.status == "failed") = false := by simp [hst]
    unfold runBody
    rw [h1, h2, h3, h4, h5]
    try dsimp only
    rw [hcond]
    try dsimp only
    unfold reportPhase
    rw [h6]
    try rfl
  · intro conn ag th m run steps e h1 h2 h3 h4 h5 hst h6 h7
    refine key e ?_
    have hcond : (run.status == "failed") = false := by simp [hst]
    unfold runBody
    rw [h1, h2, h3, h4, h5]
    try dsimp only
    rw [hcond]
    try dsimp only
    unfold reportPhase
    rw [h6]
    try dsimp only
    rw [h7]
    try rfl

/-- A concrete exception fixture. -/
def errEx : Err := ⟨"RuntimeError", "boom", "Traceback: boom"⟩

/-- The service `svcOk` with the telemetry connection-string lookup raising. -/
def svcTraceErr : Service :=
  { svcOk with getConnectionString := .error errEx }

/-- C4 witness: a concrete raising telemetry lookup is caught and the agent
session is still reached. -/
theorem C4_tracing_failures_caught_witness :
    setupTracing svcTraceErr =
      (tracingCatch
        [Event.print "📊 Setting up tracing...",
         Event.call "telemetry.get_application_insights_connection_string"]
        errEx,
       false) ∧
    Event.call "connections.get" ∈ (main envAll svcTraceErr).1 :=
  ⟨(C4_tracing_failures_caught svcTraceErr errEx).1 rfl,
   (C4_tracing_failures_caught svcTraceErr errEx).2.2.2 envAll (by decide)⟩

/-- The service `svcOk` with the connection lookup raising. -/
def svcConnErr : Service :=
  { svcOk with connectionsGet := .error errEx }

/-- C5 witness: a concrete raising connection lookup terminates the program
abnormally after the client close and the troubleshooting report. -/
theorem C5_remote_errors_propagate_witness :
    (main envAll svcConnErr).2.2 = Except.error errEx ∧
    Event.clientClose :: errorReport errEx <:+ (main envAll svcConnErr).1 :=
  (C5_remote_errors_propagate envAll svcConnErr (by decide)).1 errEx rfl

/-- C6: a step whose details are not the tool-call variant contributes only
its status line; a tool call that is not the browser-automation variant
prints nothing; a tool-call step prints its status line followed exactly by
its tool calls' reports. -/
theorem C6_non_toolcall_skipped (n : Nat) (st : RunStep) :
    (∀ k, st.step_details = StepDetails.otherDetails k →
      reportStep n st =
        [Event.print ("\nStep " ++ toString n ++ " - Status: " ++ st.status)]) ∧
    (∀ k, reportToolCall (ToolCall.otherTool k) = []) ∧
    (∀ tcs, st.step_details = StepDetails.toolCallDetails tcs →
      reportStep n st =
        Event.print ("\nStep " ++ toString n ++ " - Status: " ++ st.status) ::
          tcs.flatMap reportToolCall) := by
  refine ⟨?_, fun k => rfl, ?_⟩
  · intro k hk
    unfold reportStep
    rw [hk]
  · intro tcs hk
    unfold reportStep
    rw [hk]

/-- C6 witness: a concrete non-tool-call step yields only its status line,
and a concrete non-browser tool call yields nothing. -/
theorem C6_non_toolcall_skipped_witness :
    reportStep 1 ⟨"completed", StepDetails.otherDetails "message_creation"⟩ =
      [Event.print ("\nStep " ++ toString 1 ++ " - Status: " ++ "completed")] ∧
    reportToolCall (ToolCall.otherTool "code_interpreter") = [] :=
  ⟨(C6_non_toolcall_skipped 1
      ⟨"completed", StepDetails.otherDetails "message_creation"⟩).1
      "message_creation" rfl,
   (C6_non_toolcall_skipped 1
      ⟨"completed", StepDetails.otherDetails "message_creation"⟩).2.1
      "code_interpreter"⟩

/-- The environment `envAll` with the optional tracing flag set to the empty string. -/
def envEmptyFlag : Env := fun k =>
  if k == "AZURE_TRACING_GEN_AI_CONTENT_RECORDING_ENABLED" then some ""
  else envAll k

/-- C7 counterexample: with the optional flag already set (to the empty
string), the program still overwrites it with `"true"`, so "if the setting
is already set, its value is left unchanged" fails as stated. -/
theorem C7_flag_already_set_counterexample :
    envEmptyFlag flagVar = some "" ∧
    (main envEmptyFlag svcOk).2.1 flagVar = some "true" ∧
    (main envEmptyFlag svcOk).2.1 flagVar ≠ envEmptyFlag flagVar := by
  decide

/-- C7 (amended): if the optional flag reads as falsy (unset or empty), it
is set to `"true"` — an observable environment post-condition — and the
auto-enable note is printed; if it reads as truthy (set non-empty), the
environment is returned unchanged. -/
theorem C7_flag_autoset_amended (env : Env) (svc : Service)
    (hmiss : missingVars env = []) :
    (getv env flagVar = "" →
      (main env svc).2.1 flagVar = some "true" ∧
      Event.envSet flagVar "true" ∈ (main env svc).1 ∧
      Event.print "✅ Enabled trace content recording" ∈ (main env svc).1) ∧
    (getv env flagVar ≠ "" → (main env svc).2.1 = env) := by
  rw [main_shape env svc hmiss]
  constructor
  · intro hflag
    have hsf : setFlagOf (getv env) = true := by
      simp [setFlagOf, hflag]
    refine ⟨?_, ?_, ?_⟩
    · simp [hsf, envUpdate]
    · simp [tSetOf, hsf]
    · simp [tSetOf, hsf]
  · intro hflag
    have hsf : setFlagOf (getv env) = false := by
      simp [setFlagOf, hflag]
    simp [hsf]

/-- C7 amended witness: with the flag unset in a complete environment, it is
auto-set to `"true"` and the note is printed. -/
theorem C7_flag_autoset_amended_witness :
    (main envAll svcOk).2.1 flagVar = some "true" ∧
    Event.envSet flagVar "true" ∈ (main envAll svcOk).1 ∧
    Event.print "✅ Enabled trace content recording" ∈ (main envAll svcOk).1 :=
  (C7_flag_autoset_amended envAll svcOk (by decide)).1 (by decide)

/-- C8: whenever the Service Client scope is entered, the trace splits as a
prefix (containing the client acquisition and no close), then the single
client-close event, then exactly the outer except prints dictated by the
result — so the client is released on every exit path, before any
error reporting. -/
theorem C8_client_released_every_path (env : Env) (svc : Service)
    (hmiss : missingVars env = []) :
    ∃ pre, (main env svc).1 =
        pre ++ Event.clientClose :: tailOf (main env svc).2.2 ∧
      Event.clientCreate ∈ pre ∧
      Event.clientClose ∉ pre := by
  rw [main_shape env svc hmiss]
  refine ⟨tSetOf (getv env) ++ initTrace ++ (setupTracing svc).1 ++
    (runBody (gAfterFlag (getv env)) svc (setupTracing svc).2).1, ?_, ?_, ?_⟩
  · simp
  · simp [initTrace]
  · simp [tSetOf_no_close, initTrace, setupTracing_no_close, runBody_no_close]

/-- C8 witness: the split holds on a concrete successful run. -/
theorem C8_client_released_every_path_witness :
    ∃ pre, (main envAll svcOk).1 =
        pre ++ Event.clientClose :: tailOf (main envAll svcOk).2.2 ∧
      Event.clientCreate ∈ pre ∧
      Event.clientClose ∉ pre :=
  C8_client_released_every_path envAll svcOk (by decide)

/-- C9: the configuration check is about truthiness, not presence: with any
setting equal to the empty string, the printed trace and the result are the
same as with that setting removed; an empty required setting is reported
missing; and an empty optional flag is overwritten with `"true"`. -/
theorem C9_truthiness_not_presence (env : Env) (svc : Service) (k : String)
    (hk : env k = some "") :
    (main env svc).1 =
      (main (fun x => if x = k then none else env x) svc).1 ∧
    (main env svc).2.2 =
      (main (fun x => if x = k then none else env x) svc).2.2 ∧
    (k ∈ requiredVars → k ∈ missingVars env) ∧
    (getv env flagVar = "" → missingVars env = [] →
      (main env svc).2.1 flagVar = some "true") := by
  have hg : getv (fun x => if x = k then none else env x) = getv env := by
    funext x
    by_cases hx : x = k
    · subst hx
      simp [getv, hk]
    · simp [getv, hx]
  refine ⟨?_, ?_, ?_, ?_⟩
  · show (mainAux (getv env) svc).1 =
      (mainAux (getv (fun x => if x = k then none else env x)) svc).1
    rw [hg]
  · show (mainAux (getv env) svc).2.2 =
      (mainAux (getv (fun x => if x = k then none else env x)) svc).2.2
    rw [hg]
  · intro hkr
    refine List.mem_filter.mpr ⟨hkr, ?_⟩
    simp [getv, hk]
  · intro hflag hmiss
    have hsf : setFlagOf (getv env) = true := by
      simp [setFlagOf, hflag]
    rw [main_shape env svc hmiss]
    simp [hsf, envUpdate]

/-- The environment `envAll` with the model-identifier setting present but empty. -/
def envEmptyModel : Env := fun k =>
  if k == "PROJECT_ENDPOINT" then some "EP"
  else if k == "AZURE_PLAYWRIGHT_CONNECTION_NAME" then some "CN"
  else if k == "MODEL_DEPLOYMENT_NAME" then some ""
  else none

/-- C9 witness: an empty model identifier behaves exactly like an unset
one and is reported missing. -/
theorem C9_truthiness_not_presence_witness :
    (main envEmptyModel svcOk).1 =
      (main (fun x => if x = "MODEL_DEPLOYMENT_NAME" then none
        else envEmptyModel x) svcOk).1 ∧
    (main envEmptyModel svcOk).2.2 =
      (main (fun x => if x = "MODEL_DEPLOYMENT_NAME" then none
        else envEmptyModel x) svcOk).2.2 ∧
    ("MODEL_DEPLOYMENT_NAME" ∈ requiredVars →
      "MODEL_DEPLOYMENT_NAME" ∈ missingVars envEmptyModel) ∧
    (getv envEmptyModel flagVar = "" → missingVars envEmptyModel = [] →
      (main envEmptyModel svcOk).2.1 flagVar = some "true") :=
  C9_truthiness_not_presence envEmptyModel svcOk "MODEL_DEPLOYMENT_NAME" rfl

/-- When the awaited run status is not `"failed"`, the body continues into
the reporting phase after the status line. -/
theorem runBody_nonfailed (g : String → String) (svc : Service) (te : Bool)
    (conn : Connection) (ag : Agent) (th : AgentThread) (m : AgentMessage)
    (run : Run)
    (hconn : svc.connectionsGet = .ok conn)
    (hagent : svc.createAgent = .ok ag)
    (hth : svc.threadsCreate = .ok th)
    (hmsg : svc.messagesCreate = .ok m)
    (hrun : svc.runsCreateAndProcess = .ok run)
    (hst : run.status ≠ "failed") :
    runBody g svc te =
      (sessionTrace g conn ag th m ++
         Event.print ("\n✅ Agent run completed! Status: " ++ run.status) ::
         (reportPhase svc te ag th).1,
       (reportPhase svc te ag th).2) := by
  have hcond : (run.status == "failed") = false := by simp [hst]
  unfold runBody
  rw [hconn, hagent, hth, hmsg, hrun]
  try dsimp only
  rw [hcond]
  try dsimp only
  simp [sessionTrace]

/-- The reporting phase always begins with its header prints and the
run-step listing call. -/
theorem reportPhase_starts (svc : Service) (te : Bool)
    (ag : Agent) (th : AgentThread) :
    ∃ rest, (reportPhase svc te ag th).1 =
      Event.print "\n📊 Browser Automation Steps:" ::
      Event.print eqLine ::
      Event.call "agents.run_steps.list" :: rest := by
  unfold reportPhase
  rcases svc.runStepsList with e | steps
  · exact ⟨_, rfl⟩
  · rcases svc.getLastMessage with e | om
    · exact ⟨_, rfl⟩
    · exact ⟨_, rfl⟩

/-- When the step listing succeeds, the reporting phase performs the
last-message lookup. -/
theorem reportPhase_lastmsg_call (svc : Service) (te : Bool)
    (ag : Agent) (th : AgentThread) (steps : List RunStep)
    (h : svc.runStepsList = .ok steps) :
    Event.call "agents.messages.get_last_message_by_role" ∈
      (reportPhase svc te ag th).1 := by
  unfold reportPhase
  rw [h]
  try dsimp only
  rcases svc.getLastMessage with e | om
  · simp
  · simp

/-- C10: a run whose awaited status is any value other than `"failed"`
proceeds to the full Result Reporter phase exactly as a completed run does:
the traces differ only in the status line, the results agree, the step
listing always happens, and — when the step listing succeeds — the
last-message lookup happens too. -/
theorem C10_non_failed_status_reports (env : Env) (svc : Service)
    (conn : Connection) (ag : Agent) (th : AgentThread) (m : AgentMessage)
    (run : Run)
    (hmiss : missingVars env = [])
    (hconn : svc.connectionsGet = .ok conn)
    (hagent : svc.createAgent = .ok ag)
    (hth : svc.threadsCreate = .ok th)
    (hmsg : svc.messagesCreate = .ok m)
    (hrun : svc.runsCreateAndProcess = .ok run)
    (hst : run.status ≠ "failed") :
    ∃ pre post,
      (main env svc).1 =
        pre ++ Event.print ("\n✅ Agent run completed! Status: " ++
          run.status) :: post ∧
      (main env { svc with runsCreateAndProcess := Except.ok ({ run with status := "completed" }) }).1 =
        pre ++ Event.print ("\n✅ Agent run completed! Status: " ++
          "completed") :: post ∧
      (main env svc).2.2 =
        (main env { svc with runsCreateAndProcess := Except.ok ({ run with status := "completed" }) }).2.2 ∧
      Event.call "agents.run_steps.list" ∈ post ∧
      (∀ steps, svc.runStepsList = .ok steps →
        Event.call "agents.messages.get_last_message_by_role" ∈ post) := by
  have hms := main_shape env svc hmiss
  have hms' : main env { svc with runsCreateAndProcess := Except.ok ({ run with status := "completed" }) } =
      (tSetOf (getv env) ++ initTrace ++ (setupTracing svc).1 ++
         (runBody (gAfterFlag (getv env))
           { svc with runsCreateAndProcess := Except.ok ({ run with status := "completed" }) }
           (setupTracing svc).2).1 ++
         [Event.clientClose] ++
         tailOf (runBody (gAfterFlag (getv env))
           { svc with runsCreateAndProcess := Except.ok ({ run with status := "completed" }) }
           (setupTracing svc).2).2,
       (if setFlagOf (getv env) then envUpdate env flagVar "true" else env),
       (runBody (gAfterFlag (getv env))
         { svc with runsCreateAndProcess := Except.ok ({ run with status := "completed" }) }
         (setupTracing svc).2).2) :=
    main_shape env
      { svc with runsCreateAndProcess := Except.ok ({ run with status := "completed" }) }
      hmiss
  have hb := runBody_nonfailed (gAfterFlag (getv env)) svc (setupTracing svc).2
    conn ag th m run hconn hagent hth hmsg hrun hst
  have hb' : runBody (gAfterFlag (getv env))
        { svc with runsCreateAndProcess := Except.ok ({ run with status := "completed" }) }
        (setupTracing svc).2 =
      (sessionTrace (gAfterFlag (getv env)) conn ag th m ++
         Event.print ("\n✅ Agent run completed! Status: " ++ "completed") ::
         (reportPhase svc (setupTracing svc).2 ag th).1,
       (reportPhase svc (setupTracing svc).2 ag th).2) :=
    runBody_nonfailed (gAfterFlag (getv env))
      { svc with runsCreateAndProcess := Except.ok ({ run with status := "completed" }) }
      (setupTracing svc).2 conn ag th m { run with status := "completed" }
      hconn hagent hth hmsg rfl (by simp)
  rw [hms, hms', hb, hb']
  refine ⟨tSetOf (getv env) ++ initTrace ++ (setupTracing svc).1 ++
      sessionTrace (gAfterFlag (getv env)) conn ag th m,
    (reportPhase svc (setupTracing svc).2 ag th).1 ++ [Event.clientClose] ++
      tailOf (reportPhase svc (setupTracing svc).2 ag th).2,
    ?_, ?_, rfl, ?_, ?_⟩
  · simp
  · simp
  · obtain ⟨rest, hr⟩ :=
      reportPhase_starts svc (setupTracing svc).2 ag th
    rw [hr]
    simp
  · intro steps hsteps
    have := reportPhase_lastmsg_call svc (setupTracing svc).2 ag th steps hsteps
    simp [this]

/-- The service `svcOk` with the awaited run ending in the terminal status
`"cancelled"`. -/
def svcCancelled : Service :=
  { svcOk with runsCreateAndProcess := .ok ⟨"rid", "cancelled", ""⟩ }

/-- C10 witness: a concrete `"cancelled"` run reports exactly like the
completed variant apart from the status line. -/
theorem C10_non_failed_status_reports_witness :
    ∃ pre post,
      (main envAll svcCancelled).1 =
        pre ++ Event.print ("\n✅ Agent run completed! Status: " ++
          "cancelled") :: post ∧
      (main envAll { svcCancelled with runsCreateAndProcess := Except.ok ({ (⟨"rid", "cancelled", ""⟩ : Run) with status := "completed" }) }).1 =
        pre ++ Event.print ("\n✅ Agent run completed! Status: " ++
          "completed") :: post ∧
      (main envAll svcCancelled).2.2 =
        (main envAll { svcCancelled with runsCreateAndProcess := Except.ok ({ (⟨"rid", "cancelled", ""⟩ : Run) with status := "completed" }) }).2.2 ∧
      Event.call "agents.run_steps.list" ∈ post ∧
      (∀ steps, svcCancelled.runStepsList = .ok steps →
        Event.call "agents.messages.get_last_message_by_role" ∈ post) :=
  C10_non_failed_status_reports envAll svcCancelled ⟨"cid"⟩ ⟨"aid"⟩ ⟨"tid"⟩
    ⟨"mid"⟩ ⟨"rid", "cancelled", ""⟩ (by decide) rfl rfl rfl rfl rfl (by decide)

end BrowserAuto
